import Mathlib

/-!
Verification development for the StrangersInTown matchmaking / chat core.

The repository contains two near-duplicate implementations of the
`useHumanChat` hook.  We embed both:

* `V2` definitions follow `src/unnamed/part_002` (the standalone hook file:
  `joinLobby` presence-sync matchmaking, `handleIncomingData`, `cleanupMain`,
  `saveToRecent`, `saveFriend`, `removeFriend`);
* `V1` definitions follow the copy embedded in `src/unnamed/part_001`
  (interval-based matchmaking effect, its own `handleIncomingData`,
  `cleanupMain`, and persistence helpers).

JavaScript's `Array.prototype.sort` is a stable sort; we model the
matchmaking comparator `(a, b) => a.timestamp - b.timestamp` with the stable
`List.insertionSort` over the relation `a.timestamp ≤ b.timestamp`.
Timestamps (`Date.now()`) are modelled as `Nat`; `Math.random().toString()`
suffixes are modelled as an explicit string parameter.  `localStorage` lists
are modelled as the plain Lean lists the code serialises.
-/

namespace SIT

/-- Message sender tag (`'me' | 'stranger' | 'system'` in `types.ts` usage). -/
inductive Sender where
  | me
  | stranger
  | sys
deriving DecidableEq, Repr

/-- Message delivery status (`'sent' | 'seen'`). -/
inductive MsgStatus where
  | sent
  | seen
deriving DecidableEq, Repr

/-- Main-session lifecycle state (`ChatMode` enum). -/
inductive ChatMode where
  | IDLE
  | SEARCHING
  | WAITING
  | CONNECTED
  | DISCONNECTED
deriving DecidableEq, Repr

/-- Presence status published to the lobby (`'idle' | 'waiting' | 'busy'`). -/
inductive PresenceStatus where
  | idle
  | waiting
  | busy
deriving DecidableEq, Repr

/-- User profile record. -/
structure UserProfile where
  username : String
  age : Nat
  gender : String
  location : String
  interests : List String
deriving DecidableEq, Repr

/-- One reaction entry attached to a message. -/
structure Reaction where
  emoji : String
  sender : Sender
deriving DecidableEq, Repr

/-- A chat message.  `mtype` is the JS string field `type`
    (`'text' | 'image' | 'audio'`, or whatever `dataType` carried);
    `status` is optional just as in the TS record. -/
structure Message where
  id : String
  sender : Sender
  timestamp : Nat
  mtype : String
  text : Option String := none
  fileData : Option String := none
  reactions : List Reaction := []
  status : Option MsgStatus := none
  isEdited : Bool := false
deriving DecidableEq, Repr

/-- One entry of the lobby presence snapshot. -/
structure PresenceState where
  peerId : String
  status : PresenceStatus
  timestamp : Nat
  profile : Option UserProfile
deriving DecidableEq, Repr

/-- Persisted recent-peer entry. -/
structure RecentPeer where
  id : String
  peerId : String
  profile : UserProfile
  metAt : Nat
deriving DecidableEq, Repr

/-- Persisted friend record (`id` is the peer id). -/
structure Friend where
  id : String
  profile : UserProfile
  addedAt : Nat
  lastSeen : Nat
deriving DecidableEq, Repr

/-- Transient pending friend request. -/
structure FriendRequest where
  profile : UserProfile
  peerId : String
deriving DecidableEq, Repr

/-- The wire-level protocol envelope (closed union over the `type` field of
    `PeerData`).  Optional fields of the dynamic JS record become `Option`. -/
inductive PeerData where
  | message (payload : String) (dataType : Option String) (id : Option String)
  | seen (messageId : Option String)
  | reaction (payload : String) (messageId : Option String)
  | editMessage (payload : String) (messageId : Option String)
  | typing (payload : Bool)
  | recording (payload : Bool)
  | profileMsg (payload : UserProfile)
  | vanishMode (payload : Bool)
  | friendRequest (payload : UserProfile)
  | friendAccept (payload : UserProfile)
  | disconnectMsg
deriving DecidableEq, Repr

/-- Incoming direct-message event surfaced to the Social Hub. -/
structure DirectMessageEvent where
  peerId : String
  message : Message
deriving DecidableEq, Repr

/-- Incoming reaction event.  The part_001 handler includes the sender
    `peerId`; the part_002 handler's event has no such field, modelled
    as `none`. -/
structure IncomingReactionEvent where
  peerId : Option String
  messageId : String
  emoji : String
  sender : Sender
deriving DecidableEq, Repr

/-- Incoming direct status (typing/recording) event, keyed by peer. -/
structure DirectStatusEvent where
  peerId : String
  stype : String
  value : Bool
deriving DecidableEq, Repr

/-! ## Persistence helpers (`saveToRecent`, `saveFriend`, `removeFriend`)

Both implementations read the stored list, transform it, and write it back;
we model them as pure list transformers.  `now` stands for `Date.now()`. -/

/-- `saveToRecent` (part_002 lines 95-120, identically part_001 lines
    828-838): drop entries with the same `profile.username`, prepend the new
    entry, keep the first 20. -/
def saveToRecent (recents : List RecentPeer) (profile : UserProfile)
    (peerId : String) (now : Nat) : List RecentPeer :=
  let newPeer : RecentPeer :=
    { id := toString now, peerId := peerId, profile := profile, metAt := now }
  (newPeer :: recents.filter (fun p => p.profile.username ≠ profile.username)).take 20

/-- `saveFriend` (part_002 lines 123-148, part_001 lines 802-815): no-op when
    a record with this peer id exists, otherwise prepend a fresh record. -/
def saveFriend (friendList : List Friend) (profile : UserProfile)
    (peerId : String) (now : Nat) : List Friend :=
  if friendList.any (fun f => f.id = peerId) then friendList
  else { id := peerId, profile := profile, addedAt := now, lastSeen := now } :: friendList

/-- `removeFriend` (part_002 lines 150-163, part_001 lines 817-826). -/
def removeFriend (friendList : List Friend) (peerId : String) : List Friend :=
  friendList.filter (fun f => f.id ≠ peerId)

/-! ## The matchmaking sort

`allUsers.filter(...).sort((a, b) => a.timestamp - b.timestamp)` — a stable
sort ascending by timestamp, modelled by `List.insertionSort` over `tsLE`. -/

/-- The comparator order: ascending `timestamp`. -/
def tsLE (a b : PresenceState) : Prop := a.timestamp ≤ b.timestamp

instance : DecidableRel tsLE := fun a b => Nat.decLe a.timestamp b.timestamp

instance : IsTotal PresenceState tsLE := ⟨fun a b => Nat.le_total a.timestamp b.timestamp⟩

instance : IsTrans PresenceState tsLE := ⟨fun _ _ _ h h' => Nat.le_trans h h'⟩

instance : IsRefl PresenceState tsLE := ⟨fun a => Nat.le_refl a.timestamp⟩

/-- The JS stable sort by ascending timestamp used by both matchmaking
    implementations. -/
def jsSortByTimestamp (l : List PresenceState) : List PresenceState :=
  l.insertionSort tsLE

/-- Decision function of the part_002 presence-sync handler (`joinLobby`,
    lines 477-522): filter the snapshot to `status === 'waiting'`, stable-sort
    ascending by timestamp, and connect to the head unless it is self.
    It runs only when no attempt is in flight and no main connection is open;
    those guards are the callers' hypotheses. -/
def joinLobbyTarget (allUsers : List PresenceState) (myId : String) : Option String :=
  let sortedWaiters :=
    jsSortByTimestamp (allUsers.filter (fun u => u.status == PresenceStatus.waiting))
  match sortedWaiters.head? with
  | some oldestWaiter =>
      if oldestWaiter.peerId ≠ myId then some oldestWaiter.peerId else none
  | none => none

/-- Decision function of the part_001 interval matchmaking effect (lines
    740-781): filter to `status === 'waiting' && peerId !== myPeerId`,
    stable-sort ascending by timestamp, connect to the head if any. -/
def intervalTarget (onlineUsers : List PresenceState) (myPeerId : String) : Option String :=
  let waiters :=
    jsSortByTimestamp (onlineUsers.filter
      (fun u => u.status == PresenceStatus.waiting && u.peerId != myPeerId))
  waiters.head?.map (fun w => w.peerId)

/-- Spec-side notion: the first entry (in snapshot order) whose status is
    `waiting` and whose timestamp is minimal among all waiting entries —
    "the oldest entry with status `waiting` (by ascending timestamp)",
    with timestamp ties resolved by snapshot order as a stable sort does. -/
def firstOldestWaiter (users : List PresenceState) : Option PresenceState :=
  users.find? (fun e =>
    e.status == PresenceStatus.waiting &&
      users.all (fun u => !(u.status == PresenceStatus.waiting) || e.timestamp ≤ u.timestamp))

/-! ## Hook state and the inbound-data handlers

`ChatState` gathers the React state and refs the handlers read and write.
`localStorage`-backed lists (`friends`, `recentPeers`) are kept in the same
state since the code writes the store and the state together.  Armed
`setTimeout(..., 4000)` auto-expiry timers are modelled as absolute
deadlines (`now + 4000`); `expireIndicators` models a due timer firing. -/

structure ChatState where
  messages : List Message
  partnerTyping : Bool
  partnerRecording : Bool
  typingDeadline : Option Nat
  recordingDeadline : Option Nat
  partnerProfile : Option UserProfile
  remoteVanishMode : Option Bool
  partnerPeerId : Option String
  mode : ChatMode
  friends : List Friend
  friendRequests : List FriendRequest
  recentPeers : List RecentPeer
  incomingDirectMessage : Option DirectMessageEvent
  incomingReaction : Option IncomingReactionEvent
  incomingDirectStatus : Option DirectStatusEvent
  hasMainConn : Bool
  directConns : List String
deriving DecidableEq, Repr

/-- A timer callback armed for deadline `d` fires once the clock reaches `d`:
    `setTimeout(() => setPartnerTyping(false), 4000)` and its recording
    counterpart. -/
def expireIndicators (now : Nat) (s : ChatState) : ChatState :=
  let s1 :=
    match s.typingDeadline with
    | some d => if d ≤ now then { s with partnerTyping := false, typingDeadline := none } else s
    | none => s
  match s1.recordingDeadline with
  | some d => if d ≤ now then { s1 with partnerRecording := false, recordingDeadline := none } else s1
  | none => s1

/-- The stranger `Message` built by the part_002 `message` branch (lines
    214-224).  Note that no `status` field is assigned there. -/
def newMessageV2 (payload : String) (dataType : Option String) (msgId : String)
    (now : Nat) : Message :=
  { id := msgId
    sender := Sender.stranger
    timestamp := now
    mtype := dataType.getD "text"
    reactions := []
    text := if dataType ≠ some "image" ∧ dataType ≠ some "audio" then some payload else none
    fileData := if dataType = some "image" ∨ dataType = some "audio" then some payload else none }

/-- The stranger `Message` built by the part_001 `message` branch (lines
    884-894); identical except that it sets `status: 'sent'`. -/
def newMessageV1 (payload : String) (dataType : Option String) (msgId : String)
    (now : Nat) : Message :=
  { newMessageV2 payload dataType msgId now with status := some MsgStatus.sent }

/-- Fallback message id of part_002:
    `Date.now().toString() + Math.random().toString()`. -/
def genIdV2 (now : Nat) (rand : String) : String := toString now ++ rand

/-- Fallback message id of part_001: `Date.now().toString()`. -/
def genIdV1 (now : Nat) : String := toString now

/-- Per-message update of the `seen` branch of part_002 (lines 243-245). -/
def seenApplyV2 (mid : String) (msg : Message) : Message :=
  if msg.id = mid then { msg with status := some MsgStatus.seen } else msg

/-- Per-message update of the `seen` branch of part_001 (line 907), which
    compares `m.id === data.messageId` without first checking that the
    envelope carries a `messageId`. -/
def seenApplyV1 (messageId : Option String) (m : Message) : Message :=
  if messageId = some m.id then { m with status := some MsgStatus.seen } else m

/-- Per-message update of the `reaction` branch of part_002 (lines 253-259):
    deduplicates by emoji and sender before appending. -/
def reactApplyV2 (payload mid : String) (msg : Message) : Message :=
  if msg.id = mid then
    if msg.reactions.any (fun r => r.sender = Sender.stranger ∧ r.emoji = payload) then msg
    else { msg with reactions := msg.reactions ++ [⟨payload, Sender.stranger⟩] }
  else msg

/-- Per-message update of the `reaction` branch of part_001 (line 962):
    appends unconditionally. -/
def reactApplyV1 (payload mid : String) (m : Message) : Message :=
  if m.id = mid then { m with reactions := m.reactions ++ [⟨payload, Sender.stranger⟩] }
  else m

/-- Per-message update of the `edit_message` branch (part_002 lines 266-271,
    part_001 line 966): the fallback condition `!data.messageId` makes every
    stranger text message a target when the envelope has no id. -/
def editApply (payload : String) (messageId : Option String) (msg : Message) : Message :=
  if msg.sender = Sender.stranger ∧ msg.mtype = "text" ∧
      (messageId = none ∨ messageId = some msg.id) then
    { msg with text := some payload, isEdited := true }
  else msg

/-- `handleIncomingData` of part_002 (lines 209-337).  `isMain` is
    `conn === mainConnRef.current`, `connPeer` is `conn.peer`, `now` is
    `Date.now()`, `rand` the `Math.random().toString()` suffix.  Returns the
    new state and the envelopes sent back on the same connection. -/
def handleIncomingDataV2 (data : PeerData) (isMain : Bool) (connPeer : String)
    (now : Nat) (rand : String) (s : ChatState) : ChatState × List PeerData :=
  match data with
  | PeerData.message payload dataType id =>
      let msgId := id.getD (genIdV2 now rand)
      let newMessage := newMessageV2 payload dataType msgId now
      if isMain then
        ({ s with
            partnerTyping := false
            partnerRecording := false
            typingDeadline := none
            recordingDeadline := none
            messages := s.messages ++ [newMessage] },
         [PeerData.seen (some msgId)])
      else
        ({ s with incomingDirectMessage := some ⟨connPeer, newMessage⟩ }, [])
  | PeerData.seen messageId =>
      match messageId with
      | some mid =>
          if isMain then
            ({ s with messages := s.messages.map (seenApplyV2 mid) }, [])
          else (s, [])
      | none => (s, [])
  | PeerData.reaction payload messageId =>
      match messageId with
      | some mid =>
          let s1 :=
            { s with incomingReaction := some ⟨none, mid, payload, Sender.stranger⟩ }
          if isMain then
            ({ s1 with messages := s1.messages.map (reactApplyV2 payload mid) }, [])
          else (s1, [])
      | none => (s, [])
  | PeerData.editMessage payload messageId =>
      if isMain then
        ({ s with messages := s.messages.map (editApply payload messageId) }, [])
      else (s, [])
  | PeerData.typing payload =>
      if isMain then
        ({ s with
            partnerTyping := payload
            typingDeadline := if payload then some (now + 4000) else none }, [])
      else
        ({ s with incomingDirectStatus := some ⟨connPeer, "typing", payload⟩ }, [])
  | PeerData.recording payload =>
      if isMain then
        ({ s with
            partnerRecording := payload
            recordingDeadline := if payload then some (now + 4000) else none }, [])
      else
        ({ s with incomingDirectStatus := some ⟨connPeer, "recording", payload⟩ }, [])
  | PeerData.profileMsg payload =>
      if isMain then
        ({ s with
            partnerProfile := some payload
            recentPeers := saveToRecent s.recentPeers payload connPeer now
            messages := s.messages.map (fun msg =>
              if msg.id = "init-1" then
                { msg with text := some ("Connected with " ++ payload.username ++ ". Say hello!") }
              else msg) }, [])
      else
        ({ s with recentPeers := saveToRecent s.recentPeers payload connPeer now }, [])
  | PeerData.vanishMode payload =>
      if isMain then ({ s with remoteVanishMode := some payload }, []) else (s, [])
  | PeerData.friendRequest payload =>
      if s.friends.any (fun f => f.id = connPeer) then (s, [])
      else
        ({ s with friendRequests :=
            if s.friendRequests.any (fun req => req.peerId = connPeer) then s.friendRequests
            else s.friendRequests ++ [⟨payload, connPeer⟩] }, [])
  | PeerData.friendAccept payload =>
      if s.friends.any (fun f => f.id = connPeer) then (s, [])
      else
        ({ s with
            friends := saveFriend s.friends payload connPeer now
            friendRequests := s.friendRequests.filter (fun req => req.peerId ≠ connPeer) }, [])
  | PeerData.disconnectMsg =>
      if isMain then
        ({ s with
            mode := ChatMode.DISCONNECTED
            messages := []
            hasMainConn := false
            partnerPeerId := none }, [])
      else
        ({ s with directConns := s.directConns.filter (fun p => p ≠ connPeer) }, [])

/-- `handleIncomingData` of part_001 (lines 880-969). -/
def handleIncomingDataV1 (data : PeerData) (isMain : Bool) (connPeer : String)
    (now : Nat) (s : ChatState) : ChatState × List PeerData :=
  match data with
  | PeerData.message payload dataType id =>
      let msgId := id.getD (genIdV1 now)
      let newMessage := newMessageV1 payload dataType msgId now
      if isMain then
        ({ s with
            messages := s.messages ++ [newMessage]
            partnerTyping := false },
         [PeerData.seen (some msgId)])
      else
        ({ s with incomingDirectMessage := some ⟨connPeer, newMessage⟩ },
         [PeerData.seen (some msgId)])
  | PeerData.seen messageId =>
      if isMain then
        ({ s with messages := s.messages.map (seenApplyV1 messageId) }, [])
      else (s, [])
  | PeerData.typing payload =>
      if isMain then ({ s with partnerTyping := payload }, [])
      else ({ s with incomingDirectStatus := some ⟨connPeer, "typing", payload⟩ }, [])
  | PeerData.recording payload =>
      if isMain then ({ s with partnerRecording := payload }, [])
      else ({ s with incomingDirectStatus := some ⟨connPeer, "recording", payload⟩ }, [])
  | PeerData.profileMsg payload =>
      let s1 := { s with recentPeers := saveToRecent s.recentPeers payload connPeer now }
      if isMain then
        ({ s1 with
            partnerProfile := some payload
            messages := s1.messages.map (fun m =>
              if m.id = "init-1" then
                { m with text := some ("Connected with " ++ payload.username ++ ". Say hello!") }
              else m) }, [])
      else (s1, [])
  | PeerData.friendRequest payload =>
      if s.friends.any (fun f => f.id = connPeer) then (s, [])
      else
        ({ s with friendRequests :=
            if s.friendRequests.any (fun req => req.peerId = connPeer) then s.friendRequests
            else s.friendRequests ++ [⟨payload, connPeer⟩] }, [])
  | PeerData.friendAccept payload =>
      if s.friends.any (fun f => f.id = connPeer) then (s, [])
      else
        ({ s with
            friends := saveFriend s.friends payload connPeer now
            friendRequests := s.friendRequests.filter (fun req => req.peerId ≠ connPeer) }, [])
  | PeerData.disconnectMsg =>
      if isMain then
        ({ s with
            mode := ChatMode.DISCONNECTED
            messages := []
            partnerPeerId := none
            hasMainConn := false }, [])
      else
        ({ s with directConns := s.directConns.filter (fun p => p ≠ connPeer) }, [])
  | PeerData.vanishMode payload =>
      if isMain then ({ s with remoteVanishMode := some payload }, []) else (s, [])
  | PeerData.reaction payload messageId =>
      match messageId with
      | some mid =>
          let s1 :=
            { s with incomingReaction := some ⟨some connPeer, mid, payload, Sender.stranger⟩ }
          if isMain then
            ({ s1 with messages := s1.messages.map (reactApplyV1 payload mid) }, [])
          else (s1, [])
      | none => (s, [])
  | PeerData.editMessage payload messageId =>
      if isMain then
        ({ s with messages := s.messages.map (editApply payload messageId) }, [])
      else (s, [])

/-! ## Main-session cleanup (`cleanupMain`) -/

/-- Observable side effects of a `cleanupMain` call. -/
structure CleanupEffects where
  sentDisconnect : Bool
  closedMainAfterGrace : Bool
  republishedPresence : Option PresenceStatus
  leftLobbyChannel : Bool
deriving DecidableEq, Repr

/-- `cleanupMain` of part_001 (lines 842-876): best-effort `disconnect`
    envelope, close the main connection after a 100 ms grace `setTimeout`,
    clear the attempt timers and all transient partner state, re-track
    presence `status: 'idle'` when the lobby channel is up, and enter
    DISCONNECTED.  `hasChannel` models
    `channelRef.current && myPeerIdRef.current`. -/
def cleanupMainV1 (s : ChatState) (hasChannel : Bool) : ChatState × CleanupEffects :=
  ({ s with
      partnerTyping := false
      partnerRecording := false
      partnerPeerId := none
      partnerProfile := none
      remoteVanishMode := none
      typingDeadline := none
      recordingDeadline := none
      hasMainConn := false
      mode := ChatMode.DISCONNECTED },
   { sentDisconnect := s.hasMainConn
     closedMainAfterGrace := s.hasMainConn
     republishedPresence := if hasChannel then some PresenceStatus.idle else none
     leftLobbyChannel := false })

/-- `cleanupMain` of part_002 (lines 170-206): untracks and removes the lobby
    channel (no idle re-publish), best-effort `disconnect` envelope, close
    after the grace delay, clear timers, typing/recording flags and the
    partner peer id, and enter DISCONNECTED.  It does not touch
    `partnerProfile` or `remoteVanishMode`. -/
def cleanupMainV2 (s : ChatState) (hasChannel : Bool) : ChatState × CleanupEffects :=
  ({ s with
      partnerTyping := false
      partnerRecording := false
      partnerPeerId := none
      typingDeadline := none
      recordingDeadline := none
      hasMainConn := false
      mode := ChatMode.DISCONNECTED },
   { sentDisconnect := s.hasMainConn
     closedMainAfterGrace := s.hasMainConn
     republishedPresence := none
     leftLobbyChannel := hasChannel })

/-! ## Properties of the stable timestamp sort -/

/-- An entry whose timestamp is minimal among the entries of `l`. -/
def isMinTs (l : List PresenceState) (a : PresenceState) : Bool :=
  l.all (fun b => a.timestamp ≤ b.timestamp)

theorem find?_of_imp {α : Type} {p q : α → Bool} {c : α} :
    ∀ {l : List α}, l.find? p = some c → q c = true →
      (∀ x ∈ l, q x = true → p x = true) → l.find? q = some c := by
  intro l
  induction l with
  | nil => intro h _ _; simp at h
  | cons a l ih =>
    intro hfind hqc himp
    by_cases hpa : p a = true
    · rw [List.find?_cons_of_pos _ hpa] at hfind
      injection hfind with h
      subst h
      rw [List.find?_cons_of_pos _ hqc]
    · rw [List.find?_cons_of_neg _ (by simpa using hpa)] at hfind
      have hqa : ¬ q a = true := by
        intro hq
        exact hpa (himp a (List.mem_cons_self a l) hq)
      rw [List.find?_cons_of_neg _ hqa]
      exact ih hfind hqc (fun x hx => himp x (List.mem_cons_of_mem a hx))

theorem find?_ext {α : Type} {p q : α → Bool} (l : List α)
    (h : ∀ x, p x = q x) : l.find? p = l.find? q := by
  have hpq : p = q := funext h
  rw [hpq]

/-- The head of the stable ascending-timestamp sort is the first entry of the
    input with minimal timestamp. -/
theorem head?_jsSortByTimestamp (l : List PresenceState) :
    (jsSortByTimestamp l).head? = l.find? (isMinTs l) := by
  induction l with
  | nil => rfl
  | cons a l ih =>
    show (List.orderedInsert tsLE a (jsSortByTimestamp l)).head? = _
    cases hs : jsSortByTimestamp l with
    | nil =>
      have hl : l = [] := by
        have hperm : l.Perm [] := by
          have := List.perm_insertionSort tsLE l
          rw [jsSortByTimestamp] at hs
          rw [hs] at this
          exact this.symm
        exact hperm.eq_nil
      subst hl
      simp [List.orderedInsert, List.find?, isMinTs]
    | cons c cs =>
      have hfind_c : l.find? (isMinTs l) = some c := by
        rw [← ih, hs]
        rfl
      have hc_pred : isMinTs l c = true := List.find?_some hfind_c
      have hc_min : ∀ b ∈ l, c.timestamp ≤ b.timestamp := by
        intro b hb
        have := List.all_eq_true.mp hc_pred b hb
        simpa using this
      by_cases hac : tsLE a c
      · have hins : List.orderedInsert tsLE a (c :: cs) = a :: c :: cs := by
          simp [List.orderedInsert, hac]
        rw [hins]
        have hmin_a : isMinTs (a :: l) a = true := by
          rw [isMinTs, List.all_eq_true]
          intro b hb
          rcases List.mem_cons.mp hb with hb | hb
          · subst hb; simp
          · have : a.timestamp ≤ c.timestamp := hac
            simpa using Nat.le_trans this (hc_min b hb)
        rw [List.find?_cons_of_pos _ hmin_a]
        rfl
      · have hins : List.orderedInsert tsLE a (c :: cs) =
            c :: List.orderedInsert tsLE a cs := by
          simp [List.orderedInsert, hac]
        rw [hins]
        have hc_mem : c ∈ l := List.mem_of_find?_eq_some hfind_c
        have hnotmin_a : ¬ isMinTs (a :: l) a = true := by
          rw [isMinTs, List.all_eq_true]
          intro hall
          exact hac (by simpa using hall c (List.mem_cons_of_mem a hc_mem))
        rw [List.find?_cons_of_neg _ hnotmin_a]
        have hca : c.timestamp ≤ a.timestamp :=
          Nat.le_of_not_le (fun h => hac h)
        show some c = List.find? (isMinTs (a :: l)) l
        refine (find?_of_imp hfind_c ?_ ?_).symm
        · rw [isMinTs, List.all_eq_true]
          intro b hb
          rcases List.mem_cons.mp hb with hb | hb
          · subst hb; simpa using hca
          · simpa using hc_min b hb
        · intro x _ hx
          rw [isMinTs, List.all_eq_true] at hx ⊢
          intro b hb
          exact hx b (List.mem_cons_of_mem a hb)

theorem joinLobby_head (users : List PresenceState) :
    (jsSortByTimestamp (users.filter
        (fun u => u.status == PresenceStatus.waiting))).head? =
      firstOldestWaiter users := by
  rw [head?_jsSortByTimestamp, List.find?_filter, firstOldestWaiter]
  apply find?_ext
  intro x
  have hall : isMinTs (users.filter (fun u => u.status == PresenceStatus.waiting)) x =
      users.all (fun u =>
        !(u.status == PresenceStatus.waiting) || x.timestamp ≤ u.timestamp) := by
    rw [isMinTs, List.all_filter]
    apply congrArg
    funext u
    by_cases hu : u.status = PresenceStatus.waiting <;> simp [hu]
  rw [← hall]
  by_cases hx : x.status = PresenceStatus.waiting <;>
    cases hmin : isMinTs (users.filter (fun u => u.status == PresenceStatus.waiting)) x <;>
      simp [hx, hmin]

theorem interval_head (users : List PresenceState) (myId : String) :
    (jsSortByTimestamp (users.filter
        (fun u => u.status == PresenceStatus.waiting && u.peerId != myId))).head? =
      firstOldestWaiter (users.filter (fun u => u.peerId ≠ myId)) := by
  rw [head?_jsSortByTimestamp, List.find?_filter, firstOldestWaiter, List.find?_filter]
  apply find?_ext
  intro x
  have hall : isMinTs (users.filter
        (fun u => u.status == PresenceStatus.waiting && u.peerId != myId)) x =
      (users.filter (fun u => u.peerId ≠ myId)).all (fun u =>
        !(u.status == PresenceStatus.waiting) || x.timestamp ≤ u.timestamp) := by
    rw [isMinTs, List.all_filter, List.all_filter]
    apply congrArg
    funext u
    by_cases hu : u.status = PresenceStatus.waiting <;>
      by_cases hp : u.peerId = myId <;>
        by_cases ht : x.timestamp ≤ u.timestamp <;> simp [hu, hp, ht]
  rw [← hall]
  by_cases hx : x.status = PresenceStatus.waiting <;>
    by_cases hp : x.peerId = myId <;>
      cases hmin : isMinTs (users.filter
        (fun u => u.status == PresenceStatus.waiting && u.peerId != myId)) x <;>
        simp [hx, hp, hmin]

/-- Stability of the matchmaking sort: the entries carrying any fixed
    timestamp appear in the output in exactly their input order. -/
theorem jsSort_stable_filter (l : List PresenceState) (t : Nat) :
    (jsSortByTimestamp l).filter (fun e => e.timestamp == t) =
      l.filter (fun e => e.timestamp == t) := by
  have hperm : List.Perm ((jsSortByTimestamp l).filter (fun e => e.timestamp == t))
      (l.filter (fun e => e.timestamp == t)) :=
    (List.perm_insertionSort tsLE l).filter _
  have hpair : (l.filter (fun e => e.timestamp == t)).Pairwise tsLE := by
    apply List.pairwise_of_forall_mem_list
    intro a ha b hb
    have ha' := (List.mem_filter.mp ha).2
    have hb' := (List.mem_filter.mp hb).2
    have ha'' : a.timestamp = t := by simpa using ha'
    have hb'' : b.timestamp = t := by simpa using hb'
    show a.timestamp ≤ b.timestamp
    rw [ha'', hb'']
  have hsub : List.Sublist (l.filter (fun e => e.timestamp == t)) (jsSortByTimestamp l) :=
    List.sublist_insertionSort hpair (List.filter_sublist l)
  have hsub2 : List.Sublist (l.filter (fun e => e.timestamp == t))
      ((jsSortByTimestamp l).filter (fun e => e.timestamp == t)) := by
    have := hsub.filter (fun e => e.timestamp == t)
    rwa [List.filter_filter, (by funext e; cases h : e.timestamp == t <;> simp [h] :
      (fun e => (e.timestamp == t) && (e.timestamp == t)) =
        (fun (e : PresenceState) => e.timestamp == t))] at this
  exact (hsub2.eq_of_length hperm.length_eq.symm).symm

/-- The matchmaking sort orders by ascending timestamp. -/
theorem jsSort_sorted (l : List PresenceState) :
    (jsSortByTimestamp l).Pairwise (fun a b => a.timestamp ≤ b.timestamp) :=
  List.sorted_insertionSort tsLE l

/-- The matchmaking sort is a permutation of its input. -/
theorem jsSort_perm (l : List PresenceState) : List.Perm (jsSortByTimestamp l) l :=
  List.perm_insertionSort tsLE l

/-- The `sortedWaiters` list computed by the part_002 presence-sync handler
    (lines 484-486). -/
def sortedWaiters (allUsers : List PresenceState) : List PresenceState :=
  jsSortByTimestamp (allUsers.filter (fun u => u.status == PresenceStatus.waiting))

/-! ## Concrete fixtures used by witnesses and counterexamples -/

def testProfile : UserProfile :=
  { username := "alice", age := 30, gender := "f", location := "x", interests := [] }

def emptyState : ChatState :=
  { messages := []
    partnerTyping := false
    partnerRecording := false
    typingDeadline := none
    recordingDeadline := none
    partnerProfile := none
    remoteVanishMode := none
    partnerPeerId := none
    mode := ChatMode.IDLE
    friends := []
    friendRequests := []
    recentPeers := []
    incomingDirectMessage := none
    incomingReaction := none
    incomingDirectStatus := none
    hasMainConn := false
    directConns := [] }

def strangerTextMsg : Message :=
  { id := "m1", sender := Sender.stranger, timestamp := 0, mtype := "text", text := some "hi" }

def oneMsgState : ChatState := { emptyState with messages := [strangerTextMsg] }

def connectedState : ChatState :=
  { emptyState with
      hasMainConn := true
      partnerProfile := some testProfile
      remoteVanishMode := some true
      partnerPeerId := some "q"
      mode := ChatMode.CONNECTED }

/-! ## Claim theorems -/

/-- C1 counterexample: in the snapshot
    `[(me, waiting, t=100), (p2, waiting, t=200)]` the oldest waiting entry is
    the client itself, so by the claim the client initiates nothing — yet the
    part_001 interval implementation initiates a connection to `p2`. -/
theorem claim_C1_counterexample :
    (firstOldestWaiter
        [⟨"me", PresenceStatus.waiting, 100, none⟩,
         ⟨"p2", PresenceStatus.waiting, 200, none⟩]).map (fun w => w.peerId) =
      some "me" ∧
    intervalTarget
        [⟨"me", PresenceStatus.waiting, 100, none⟩,
         ⟨"p2", PresenceStatus.waiting, 200, none⟩] "me" = some "p2" := by
  exact ⟨rfl, rfl⟩

/-- C1 (amended): while SEARCHING/WAITING with no main connection and no
    attempt in flight, the part_002 `joinLobby` handler initiates if and only
    if the first oldest waiting entry (ascending timestamp, ties by snapshot
    order) belongs to a different peer, and it targets exactly that entry,
    initiating nothing when the client itself is the oldest waiter; the
    part_001 interval effect instead excludes self before sorting and targets
    the oldest waiting peer other than itself whenever one exists, even when
    the client itself is the oldest waiter. -/
theorem claim_C1_amended (users : List PresenceState) (myId : String) :
    joinLobbyTarget users myId =
      (match firstOldestWaiter users with
       | some w => if w.peerId ≠ myId then some w.peerId else none
       | none => none) ∧
    intervalTarget users myId =
      (firstOldestWaiter (users.filter (fun u => u.peerId ≠ myId))).map
        (fun w => w.peerId) := by
  constructor
  · show (match (jsSortByTimestamp (users.filter
        (fun u => u.status == PresenceStatus.waiting))).head? with
      | some oldestWaiter =>
          if oldestWaiter.peerId ≠ myId then some oldestWaiter.peerId else none
      | none => none) = _
    rw [joinLobby_head]
  · show ((jsSortByTimestamp (users.filter
        (fun u => u.status == PresenceStatus.waiting && u.peerId != myId))).head?).map
          (fun w => w.peerId) = _
    rw [interval_head]

/-- C3 counterexample: two snapshots with the same set of waiting entries
    (`a` and `b`, both at timestamp 100) in different orders sort to
    different outputs, and the tie is kept in snapshot order rather than
    broken by peerId string comparison (`"a" < "b"` yet `b` comes first). -/
theorem claim_C3_counterexample :
    List.Perm
      [(⟨"a", PresenceStatus.waiting, 100, none⟩ : PresenceState),
       ⟨"b", PresenceStatus.waiting, 100, none⟩]
      [⟨"b", PresenceStatus.waiting, 100, none⟩,
       ⟨"a", PresenceStatus.waiting, 100, none⟩] ∧
    sortedWaiters
        [⟨"a", PresenceStatus.waiting, 100, none⟩,
         ⟨"b", PresenceStatus.waiting, 100, none⟩] ≠
      sortedWaiters
        [⟨"b", PresenceStatus.waiting, 100, none⟩,
         ⟨"a", PresenceStatus.waiting, 100, none⟩] ∧
    (sortedWaiters
        [⟨"a", PresenceStatus.waiting, 100, none⟩,
         ⟨"b", PresenceStatus.waiting, 100, none⟩]).map (fun e => e.peerId) =
      ["a", "b"] ∧
    (sortedWaiters
        [⟨"b", PresenceStatus.waiting, 100, none⟩,
         ⟨"a", PresenceStatus.waiting, 100, none⟩]).map (fun e => e.peerId) =
      ["b", "a"] := by
  refine ⟨?_, ?_, ?_, ?_⟩ <;> decide

/-- C3 (amended): the matchmaking sort is the deterministic stable sort of
    the waiting entries by ascending timestamp: its output is a permutation
    of the waiting entries, is ordered by timestamp, and entries of equal
    timestamp keep their snapshot order (ties are not broken by peerId
    string comparison). -/
theorem claim_C3_amended (users : List PresenceState) (t : Nat) :
    List.Perm (sortedWaiters users)
      (users.filter (fun u => u.status == PresenceStatus.waiting)) ∧
    (sortedWaiters users).Pairwise (fun a b => a.timestamp ≤ b.timestamp) ∧
    (sortedWaiters users).filter (fun e => e.timestamp == t) =
      (users.filter (fun u => u.status == PresenceStatus.waiting)).filter
        (fun e => e.timestamp == t) :=
  ⟨jsSort_perm _, jsSort_sorted _, jsSort_stable_filter _ t⟩

/-- C2 counterexample: on a direct connection, the part_002 handler surfaces
    the inbound message but sends no `seen` ack back (it sends nothing at
    all), and on the main connection the Message it appends carries no
    `status` field ('sent' is never assigned). -/
theorem claim_C2_counterexample :
    (handleIncomingDataV2 (PeerData.message "hi" (some "text") (some "m1"))
        false "p" 5 "r" emptyState).2 = [] ∧
    ((handleIncomingDataV2 (PeerData.message "hi" (some "text") (some "m1"))
        true "p" 5 "r" emptyState).1.messages.map (fun m => m.status)) =
      [none] := by
  exact ⟨rfl, rfl⟩

/-- C2 (amended): for an inbound text `message` envelope with id `mid`: on
    the main connection both implementations append exactly one stranger
    Message with that id and text and send `{seen, mid}` back on the same
    connection — part_001 marks the appended Message `status: 'sent'` while
    part_002 leaves its status unset; on a direct connection both surface an
    incoming-direct-message event keyed by the sender peerId, and part_001
    sends the `seen` ack on that connection while part_002 sends nothing. -/
theorem claim_C2_amended (payload mid peer : String) (now : Nat) (rand : String)
    (s : ChatState) :
    (∃ m,
      (handleIncomingDataV1 (PeerData.message payload (some "text") (some mid))
          true peer now s).1.messages = s.messages ++ [m] ∧
      m.id = mid ∧ m.text = some payload ∧ m.sender = Sender.stranger ∧
      m.status = some MsgStatus.sent ∧
      (handleIncomingDataV1 (PeerData.message payload (some "text") (some mid))
          true peer now s).2 = [PeerData.seen (some mid)]) ∧
    (∃ m,
      (handleIncomingDataV1 (PeerData.message payload (some "text") (some mid))
          false peer now s).1.incomingDirectMessage = some ⟨peer, m⟩ ∧
      m.id = mid ∧ m.text = some payload ∧ m.sender = Sender.stranger ∧
      (handleIncomingDataV1 (PeerData.message payload (some "text") (some mid))
          false peer now s).1.messages = s.messages ∧
      (handleIncomingDataV1 (PeerData.message payload (some "text") (some mid))
          false peer now s).2 = [PeerData.seen (some mid)]) ∧
    (∃ m,
      (handleIncomingDataV2 (PeerData.message payload (some "text") (some mid))
          true peer now rand s).1.messages = s.messages ++ [m] ∧
      m.id = mid ∧ m.text = some payload ∧ m.sender = Sender.stranger ∧
      m.status = none ∧
      (handleIncomingDataV2 (PeerData.message payload (some "text") (some mid))
          true peer now rand s).2 = [PeerData.seen (some mid)]) ∧
    (∃ m,
      (handleIncomingDataV2 (PeerData.message payload (some "text") (some mid))
          false peer now rand s).1.incomingDirectMessage = some ⟨peer, m⟩ ∧
      m.id = mid ∧ m.text = some payload ∧ m.sender = Sender.stranger ∧
      (handleIncomingDataV2 (PeerData.message payload (some "text") (some mid))
          false peer now rand s).1.messages = s.messages ∧
      (handleIncomingDataV2 (PeerData.message payload (some "text") (some mid))
          false peer now rand s).2 = []) := by
  refine ⟨⟨newMessageV1 payload (some "text") mid now, ?_⟩,
          ⟨newMessageV1 payload (some "text") mid now, ?_⟩,
          ⟨newMessageV2 payload (some "text") mid now, ?_⟩,
          ⟨newMessageV2 payload (some "text") mid now, ?_⟩⟩ <;>
    simp [handleIncomingDataV1, handleIncomingDataV2, newMessageV1, newMessageV2]

/-- C10: an inbound `message` envelope without an id is handled exactly as if
    it carried the generated fallback id (`Date.now().toString()` plus a
    `Math.random()` suffix in part_002, the bare timestamp string in
    part_001): the whole handler result coincides, the main-connection `seen`
    ack references the generated id, and the message is appended (main) or
    surfaced (direct) under the generated id. -/
theorem claim_C10 (payload : String) (dataType : Option String) (isMain : Bool)
    (peer : String) (now : Nat) (rand : String) (s : ChatState) :
    handleIncomingDataV2 (PeerData.message payload dataType none) isMain peer now rand s =
      handleIncomingDataV2 (PeerData.message payload dataType (some (genIdV2 now rand)))
        isMain peer now rand s ∧
    handleIncomingDataV1 (PeerData.message payload dataType none) isMain peer now s =
      handleIncomingDataV1 (PeerData.message payload dataType (some (genIdV1 now)))
        isMain peer now s ∧
    (handleIncomingDataV2 (PeerData.message payload dataType none) true peer now rand s).2 =
      [PeerData.seen (some (genIdV2 now rand))] ∧
    (handleIncomingDataV1 (PeerData.message payload dataType none) true peer now s).2 =
      [PeerData.seen (some (genIdV1 now))] ∧
    (∃ m, (handleIncomingDataV2 (PeerData.message payload dataType none)
        true peer now rand s).1.messages = s.messages ++ [m] ∧ m.id = genIdV2 now rand) ∧
    (∃ m, (handleIncomingDataV2 (PeerData.message payload dataType none)
        false peer now rand s).1.incomingDirectMessage = some ⟨peer, m⟩ ∧
      m.id = genIdV2 now rand) := by
  refine ⟨?_, ?_, rfl, rfl,
          ⟨newMessageV2 payload dataType (genIdV2 now rand) now, rfl, rfl⟩,
          ⟨newMessageV2 payload dataType (genIdV2 now rand) now, rfl, rfl⟩⟩ <;>
    cases isMain <;> rfl

/-- Replaying the part_002 reaction update is a no-op: the dedupe check
    makes the per-message update idempotent. -/
theorem reactApplyV2_idem (payload mid : String) (m : Message) :
    reactApplyV2 payload mid (reactApplyV2 payload mid m) = reactApplyV2 payload mid m := by
  by_cases hid : m.id = mid
  · by_cases hr : (m.reactions.any
        (fun r => r.sender = Sender.stranger ∧ r.emoji = payload)) = true
    · have h1 : reactApplyV2 payload mid m = m := by
        rw [reactApplyV2, if_pos hid, if_pos hr]
      rw [h1]
      exact h1
    · have h1 : reactApplyV2 payload mid m =
          { m with reactions := m.reactions ++ [⟨payload, Sender.stranger⟩] } := by
        rw [reactApplyV2, if_pos hid, if_neg hr]
      rw [h1, reactApplyV2]
      have hid2 : ({ m with reactions := m.reactions ++ [⟨payload, Sender.stranger⟩] } :
          Message).id = mid := hid
      rw [if_pos hid2]
      have hany : (({ m with reactions := m.reactions ++ [⟨payload, Sender.stranger⟩] } :
          Message).reactions.any
            (fun r => r.sender = Sender.stranger ∧ r.emoji = payload)) = true := by
        simp
      rw [if_pos hany]
  · have h2 : reactApplyV2 payload mid m = m := by rw [reactApplyV2, if_neg hid]
    rw [h2]
    exact h2

/-- Replaying the part_001 reaction update appends a second identical
    reaction entry. -/
theorem reactApplyV1_twice (payload mid : String) (m : Message) :
    reactApplyV1 payload mid (reactApplyV1 payload mid m) =
      (if m.id = mid then
        { m with reactions := m.reactions ++
            [⟨payload, Sender.stranger⟩, ⟨payload, Sender.stranger⟩] }
      else m) := by
  by_cases hid : m.id = mid
  · have h1 : reactApplyV1 payload mid m =
        { m with reactions := m.reactions ++ [⟨payload, Sender.stranger⟩] } := by
      rw [reactApplyV1, if_pos hid]
    have hid2 : ({ m with reactions := m.reactions ++ [⟨payload, Sender.stranger⟩] } :
        Message).id = mid := hid
    rw [h1, reactApplyV1, if_pos hid2, if_pos hid]
    simp
  · have h1 : reactApplyV1 payload mid m = m := by rw [reactApplyV1, if_neg hid]
    rw [h1, h1, if_neg hid]

/-- C4 counterexample: replaying the same `reaction` envelope
    `{messageId: "m1", emoji: "heart"}` through the part_001 main-connection
    handler leaves the referenced message with two identical reaction
    entries. -/
theorem claim_C4_counterexample :
    ((handleIncomingDataV1 (PeerData.reaction "heart" (some "m1")) true "p" 1
        (handleIncomingDataV1 (PeerData.reaction "heart" (some "m1")) true "p" 0
          oneMsgState).1).1.messages.map (fun m => m.reactions)) =
      [[⟨"heart", Sender.stranger⟩, ⟨"heart", Sender.stranger⟩]] := by
  exact rfl

/-- C4 (amended): applying the same inbound `reaction` envelope twice with
    identical messageId/emoji (sender is always the stranger) is idempotent
    on the whole part_002 handler state — the referenced Message never gains
    a duplicate stranger reaction with the same emoji — whereas the part_001
    handler appends unconditionally, so each replay adds another identical
    reaction entry to the referenced Message. -/
theorem claim_C4_amended (mid emoji peer : String) (now now2 : Nat)
    (rand rand2 : String) (s : ChatState) :
    (handleIncomingDataV2 (PeerData.reaction emoji (some mid)) true peer now2 rand2
        (handleIncomingDataV2 (PeerData.reaction emoji (some mid)) true peer now rand
          s).1).1.messages =
      (handleIncomingDataV2 (PeerData.reaction emoji (some mid)) true peer now rand
        s).1.messages ∧
    (handleIncomingDataV1 (PeerData.reaction emoji (some mid)) true peer now2
        (handleIncomingDataV1 (PeerData.reaction emoji (some mid)) true peer now
          s).1).1.messages =
      s.messages.map (fun m =>
        if m.id = mid then
          { m with reactions := m.reactions ++
              [⟨emoji, Sender.stranger⟩, ⟨emoji, Sender.stranger⟩] }
        else m) := by
  constructor
  · simp only [handleIncomingDataV2, if_true, List.map_map]
    apply List.map_congr_left
    intro m _
    exact reactApplyV2_idem emoji mid m
  · simp only [handleIncomingDataV1, if_true, List.map_map]
    apply List.map_congr_left
    intro m _
    exact reactApplyV1_twice emoji mid m

theorem map_id_of_mem {α : Type} {f : α → α} {l : List α}
    (h : ∀ m ∈ l, f m = m) : l.map f = l :=
  (List.map_congr_left h).trans (List.map_id l)

/-- C5 counterexample: after the part_002 `cleanupMain` the partner profile
    and remote-vanish flag are still set and no idle presence is republished
    (the lobby channel is removed instead), contradicting the claimed
    post-state of a completed disconnect. -/
theorem claim_C5_counterexample :
    (cleanupMainV2 connectedState true).1.partnerProfile = some testProfile ∧
    (cleanupMainV2 connectedState true).1.remoteVanishMode = some true ∧
    (cleanupMainV2 connectedState true).2.republishedPresence = none := by
  exact ⟨rfl, rfl, rfl⟩

/-- C5 (amended): after `cleanupMain` both implementations clear the typing
    and recording flags and the partner peer id, send the best-effort
    `disconnect` envelope and close the transport connection after the grace
    delay exactly when a main connection existed, and end DISCONNECTED;
    part_001 additionally nulls the partner profile, resets the remote-vanish
    flag, and republishes presence `idle` (when the lobby channel is up),
    whereas part_002 leaves profile and vanish flag untouched and leaves the
    lobby channel entirely instead of republishing `idle`. -/
theorem claim_C5_amended (s : ChatState) (hasChannel : Bool) :
    ((cleanupMainV1 s hasChannel).1.partnerProfile = none ∧
     (cleanupMainV1 s hasChannel).1.partnerTyping = false ∧
     (cleanupMainV1 s hasChannel).1.partnerRecording = false ∧
     (cleanupMainV1 s hasChannel).1.remoteVanishMode = none ∧
     (cleanupMainV1 s hasChannel).1.partnerPeerId = none ∧
     (cleanupMainV1 s hasChannel).1.mode = ChatMode.DISCONNECTED ∧
     (cleanupMainV1 s hasChannel).2.sentDisconnect = s.hasMainConn ∧
     (cleanupMainV1 s hasChannel).2.closedMainAfterGrace = s.hasMainConn ∧
     (cleanupMainV1 s hasChannel).2.republishedPresence =
       (if hasChannel then some PresenceStatus.idle else none)) ∧
    ((cleanupMainV2 s hasChannel).1.partnerTyping = false ∧
     (cleanupMainV2 s hasChannel).1.partnerRecording = false ∧
     (cleanupMainV2 s hasChannel).1.partnerPeerId = none ∧
     (cleanupMainV2 s hasChannel).1.mode = ChatMode.DISCONNECTED ∧
     (cleanupMainV2 s hasChannel).1.partnerProfile = s.partnerProfile ∧
     (cleanupMainV2 s hasChannel).1.remoteVanishMode = s.remoteVanishMode ∧
     (cleanupMainV2 s hasChannel).2.sentDisconnect = s.hasMainConn ∧
     (cleanupMainV2 s hasChannel).2.closedMainAfterGrace = s.hasMainConn ∧
     (cleanupMainV2 s hasChannel).2.republishedPresence = none ∧
     (cleanupMainV2 s hasChannel).2.leftLobbyChannel = hasChannel) := by
  refine ⟨⟨rfl, rfl, rfl, rfl, rfl, rfl, rfl, rfl, rfl⟩,
          ⟨rfl, rfl, rfl, rfl, rfl, rfl, rfl, rfl, rfl, rfl⟩⟩

/-- C6 counterexample: an `edit_message` envelope that carries no message id
    is not ignored — both handlers rewrite every stranger text message (here
    the single history entry changes its text from "hi" to "edited" and gains
    the edited flag). -/
theorem claim_C6_counterexample :
    ((handleIncomingDataV2 (PeerData.editMessage "edited" none) true "p" 0 "r"
        oneMsgState).1.messages.map (fun m => m.text)) = [some "edited"] ∧
    ((handleIncomingDataV1 (PeerData.editMessage "edited" none) true "p" 0
        oneMsgState).1.messages.map (fun m => m.text)) = [some "edited"] := by
  exact ⟨rfl, rfl⟩

/-- C6 (amended): a `reaction`, `edit_message`, or `seen` envelope whose
    referenced id is not present in the local history leaves the history
    unchanged in both implementations, and so do `seen` and `reaction`
    envelopes with no id at all (for those two the part_002 and part_001
    handlers change nothing whatsoever); an `edit_message` envelope with a
    missing id, however, falls back to editing every stranger text message
    (see the counterexample), so only id-bearing edits are no-ops. -/
theorem claim_C6_amended (mid emoji newText peer : String) (now : Nat)
    (rand : String) (isMain : Bool) (s : ChatState)
    (habs : ∀ m ∈ s.messages, m.id ≠ mid) :
    (handleIncomingDataV2 (PeerData.seen (some mid)) isMain peer now rand s).1.messages =
      s.messages ∧
    (handleIncomingDataV2 (PeerData.reaction emoji (some mid)) isMain peer now rand
        s).1.messages = s.messages ∧
    (handleIncomingDataV2 (PeerData.editMessage newText (some mid)) isMain peer now rand
        s).1.messages = s.messages ∧
    (handleIncomingDataV1 (PeerData.seen (some mid)) isMain peer now s).1.messages =
      s.messages ∧
    (handleIncomingDataV1 (PeerData.reaction emoji (some mid)) isMain peer now
        s).1.messages = s.messages ∧
    (handleIncomingDataV1 (PeerData.editMessage newText (some mid)) isMain peer now
        s).1.messages = s.messages ∧
    handleIncomingDataV2 (PeerData.seen none) isMain peer now rand s = (s, []) ∧
    handleIncomingDataV2 (PeerData.reaction emoji none) isMain peer now rand s = (s, []) ∧
    (handleIncomingDataV1 (PeerData.seen none) isMain peer now s).1.messages =
      s.messages ∧
    handleIncomingDataV1 (PeerData.reaction emoji none) isMain peer now s = (s, []) := by
  have hseen2 : s.messages.map (seenApplyV2 mid) = s.messages := by
    apply map_id_of_mem
    intro m hm
    rw [seenApplyV2, if_neg (habs m hm)]
  have hreact2 : s.messages.map (reactApplyV2 emoji mid) = s.messages := by
    apply map_id_of_mem
    intro m hm
    rw [reactApplyV2, if_neg (habs m hm)]
  have hreact1 : s.messages.map (reactApplyV1 emoji mid) = s.messages := by
    apply map_id_of_mem
    intro m hm
    rw [reactApplyV1, if_neg (habs m hm)]
  have hedit : s.messages.map (editApply newText (some mid)) = s.messages := by
    apply map_id_of_mem
    intro m hm
    rw [editApply, if_neg]
    intro hcond
    rcases hcond.2.2 with hnone | hsome
    · exact Option.noConfusion hnone
    · exact habs m hm (Option.some.injEq _ _ ▸ hsome.symm ▸ rfl)
  have hseen1 : s.messages.map (seenApplyV1 (some mid)) = s.messages := by
    apply map_id_of_mem
    intro m hm
    rw [seenApplyV1, if_neg]
    intro hcond
    exact habs m hm (by injection hcond with h; exact h.symm)
  have hseen1none : s.messages.map (seenApplyV1 none) = s.messages := by
    apply map_id_of_mem
    intro m _
    rw [seenApplyV1, if_neg]
    exact fun hcond => Option.noConfusion hcond
  cases isMain <;>
    simp [handleIncomingDataV2, handleIncomingDataV1,
      hseen2, hreact2, hreact1, hedit, hseen1, hseen1none]


/-- Witness for C6: instantiates the amended theorem at the one-message
    history with the unknown id "m9". -/
theorem claim_C6_witness :
    (∀ m ∈ oneMsgState.messages, m.id ≠ "m9") ∧
    ((handleIncomingDataV2 (PeerData.seen (some "m9")) true "p" 3 "r"
        oneMsgState).1.messages = oneMsgState.messages ∧
     (handleIncomingDataV2 (PeerData.reaction "e" (some "m9")) true "p" 3 "r"
        oneMsgState).1.messages = oneMsgState.messages ∧
     (handleIncomingDataV2 (PeerData.editMessage "t" (some "m9")) true "p" 3 "r"
        oneMsgState).1.messages = oneMsgState.messages ∧
     (handleIncomingDataV1 (PeerData.seen (some "m9")) true "p" 3
        oneMsgState).1.messages = oneMsgState.messages ∧
     (handleIncomingDataV1 (PeerData.reaction "e" (some "m9")) true "p" 3
        oneMsgState).1.messages = oneMsgState.messages ∧
     (handleIncomingDataV1 (PeerData.editMessage "t" (some "m9")) true "p" 3
        oneMsgState).1.messages = oneMsgState.messages ∧
     handleIncomingDataV2 (PeerData.seen none) true "p" 3 "r" oneMsgState =
       (oneMsgState, []) ∧
     handleIncomingDataV2 (PeerData.reaction "e" none) true "p" 3 "r" oneMsgState =
       (oneMsgState, []) ∧
     (handleIncomingDataV1 (PeerData.seen none) true "p" 3 oneMsgState).1.messages =
       oneMsgState.messages ∧
     handleIncomingDataV1 (PeerData.reaction "e" none) true "p" 3 oneMsgState =
       (oneMsgState, [])) :=
  ⟨by decide, claim_C6_amended "m9" "e" "t" "p" 3 "r" true oneMsgState (by decide)⟩

/-- C8 counterexample: the part_001 handler sets the typing indicator on
    `typing(true)` but never arms the 4-second timer, so 4 seconds later —
    with no further envelope — the indicator is still set. -/
theorem claim_C8_counterexample :
    (expireIndicators 4000
        ((handleIncomingDataV1 (PeerData.typing true) true "p" 0
          emptyState).1)).partnerTyping = true := by
  exact rfl

/-- C8 (amended): after an inbound `typing`/`recording` envelope with payload
    true on the main connection, the indicator is set in both
    implementations; in part_002 a 4-second timer is armed, so once 4 seconds
    elapse with no further envelope the indicator is clear, whereas in
    part_001 no timer is ever armed (given none is pending, none is pending
    afterwards) and the indicator remains set indefinitely until explicitly
    cleared. -/
theorem claim_C8_amended (peer : String) (now t : Nat) (rand : String)
    (s : ChatState) (hexp : now + 4000 ≤ t)
    (htd : s.typingDeadline = none) (hrd : s.recordingDeadline = none) :
    ((handleIncomingDataV2 (PeerData.typing true) true peer now rand
        s).1.partnerTyping = true ∧
     (expireIndicators t
        (handleIncomingDataV2 (PeerData.typing true) true peer now rand
          s).1).partnerTyping = false) ∧
    ((handleIncomingDataV2 (PeerData.recording true) true peer now rand
        s).1.partnerRecording = true ∧
     (expireIndicators t
        (handleIncomingDataV2 (PeerData.recording true) true peer now rand
          s).1).partnerRecording = false) ∧
    ((handleIncomingDataV1 (PeerData.typing true) true peer now
        s).1.partnerTyping = true ∧
     (handleIncomingDataV1 (PeerData.typing true) true peer now
        s).1.typingDeadline = none ∧
     (expireIndicators t
        (handleIncomingDataV1 (PeerData.typing true) true peer now
          s).1).partnerTyping = true) ∧
    ((handleIncomingDataV1 (PeerData.recording true) true peer now
        s).1.partnerRecording = true ∧
     (handleIncomingDataV1 (PeerData.recording true) true peer now
        s).1.recordingDeadline = none ∧
     (expireIndicators t
        (handleIncomingDataV1 (PeerData.recording true) true peer now
          s).1).partnerRecording = true) := by
  refine ⟨⟨rfl, ?_⟩, ⟨rfl, ?_⟩, ⟨rfl, by simpa [handleIncomingDataV1] using htd, ?_⟩,
      ⟨rfl, by simpa [handleIncomingDataV1] using hrd, ?_⟩⟩
  · simp [handleIncomingDataV2, expireIndicators, hexp, hrd]
  · simp [handleIncomingDataV2, expireIndicators, hexp, htd]
  · simp [handleIncomingDataV1, expireIndicators, htd, hrd]
  · simp [handleIncomingDataV1, expireIndicators, htd, hrd]

/-- Witness for C8: concrete run at time 0 with the expiry checked at 4000 ms
    from the idle state. -/
theorem claim_C8_witness :
    (0 + 4000 ≤ 4000 ∧ emptyState.typingDeadline = none ∧
      emptyState.recordingDeadline = none) ∧
    (((handleIncomingDataV2 (PeerData.typing true) true "p" 0 "r"
        emptyState).1.partnerTyping = true ∧
      (expireIndicators 4000
        (handleIncomingDataV2 (PeerData.typing true) true "p" 0 "r"
          emptyState).1).partnerTyping = false) ∧
     ((handleIncomingDataV2 (PeerData.recording true) true "p" 0 "r"
        emptyState).1.partnerRecording = true ∧
      (expireIndicators 4000
        (handleIncomingDataV2 (PeerData.recording true) true "p" 0 "r"
          emptyState).1).partnerRecording = false) ∧
     ((handleIncomingDataV1 (PeerData.typing true) true "p" 0
        emptyState).1.partnerTyping = true ∧
      (handleIncomingDataV1 (PeerData.typing true) true "p" 0
        emptyState).1.typingDeadline = none ∧
      (expireIndicators 4000
        (handleIncomingDataV1 (PeerData.typing true) true "p" 0
          emptyState).1).partnerTyping = true) ∧
     ((handleIncomingDataV1 (PeerData.recording true) true "p" 0
        emptyState).1.partnerRecording = true ∧
      (handleIncomingDataV1 (PeerData.recording true) true "p" 0
        emptyState).1.recordingDeadline = none ∧
      (expireIndicators 4000
        (handleIncomingDataV1 (PeerData.recording true) true "p" 0
          emptyState).1).partnerRecording = true)) :=
  ⟨⟨by decide, rfl, rfl⟩,
   claim_C8_amended "p" 0 4000 "r" emptyState (by decide) rfl rfl⟩

def testFriend : Friend := { id := "q", profile := testProfile, addedAt := 0, lastSeen := 0 }

def friendState : ChatState := { emptyState with friends := [testFriend] }

/-- C7: `saveToRecent` keeps at most 20 entries, puts the new entry first,
    preserves most-recent-first ordering by `metAt`, replaces any entry with
    the same profile identity (username) by the new one, and inserting into a
    full list of 20 fresh entries evicts the last (oldest) one. -/
theorem claim_C7 (recents : List RecentPeer) (profile : UserProfile)
    (peerId : String) (now : Nat)
    (hdedup : recents.Pairwise (fun p q => p.profile.username ≠ q.profile.username)) :
    (saveToRecent recents profile peerId now).length ≤ 20 ∧
    (saveToRecent recents profile peerId now).head? =
      some { id := toString now, peerId := peerId, profile := profile, metAt := now } ∧
    (saveToRecent recents profile peerId now).Pairwise
      (fun p q => p.profile.username ≠ q.profile.username) ∧
    (∀ q ∈ saveToRecent recents profile peerId now,
        q.profile.username = profile.username →
          q = { id := toString now, peerId := peerId, profile := profile, metAt := now }) ∧
    (recents.Pairwise (fun p q => q.metAt ≤ p.metAt) →
      (∀ p ∈ recents, p.metAt ≤ now) →
      (saveToRecent recents profile peerId now).Pairwise
        (fun p q => q.metAt ≤ p.metAt)) ∧
    (recents.length = 20 →
      (∀ p ∈ recents, p.profile.username ≠ profile.username) →
      saveToRecent recents profile peerId now =
        { id := toString now, peerId := peerId, profile := profile, metAt := now } ::
          recents.dropLast) := by
  refine ⟨?_, ?_, ?_, ?_, ?_, ?_⟩
  · exact List.length_take_le 20 _
  · rw [saveToRecent]
    rw [show (20 : Nat) = 19 + 1 by norm_num, List.take_succ_cons]
    rfl
  · rw [saveToRecent]
    apply List.Pairwise.sublist (List.take_sublist _ _)
    apply List.pairwise_cons.mpr
    constructor
    · intro q hq
      have := (List.mem_filter.mp hq).2
      have hne : q.profile.username ≠ profile.username := by simpa using this
      exact fun h => hne (h.symm)
    · exact hdedup.sublist (List.filter_sublist recents)
  · intro q hq hname
    have hq2 := List.mem_of_mem_take hq
    rcases List.mem_cons.mp hq2 with h | h
    · exact h
    · have := (List.mem_filter.mp h).2
      have hne : q.profile.username ≠ profile.username := by simpa using this
      exact absurd hname hne
  · intro hsorted hle
    rw [saveToRecent]
    apply List.Pairwise.sublist (List.take_sublist _ _)
    apply List.pairwise_cons.mpr
    constructor
    · intro q hq
      exact hle q (List.mem_of_mem_filter hq)
    · exact hsorted.sublist (List.filter_sublist recents)
  · intro hlen hall
    rw [saveToRecent]
    have hfe : recents.filter (fun p => p.profile.username ≠ profile.username) = recents := by
      apply List.filter_eq_self.mpr
      intro p hp
      simpa using hall p hp
    rw [hfe, show (20 : Nat) = 19 + 1 by norm_num, List.take_succ_cons]
    rw [List.dropLast_eq_take, hlen]

/-- Witness for C7: instantiates the theorem at the empty stored list. -/
theorem claim_C7_witness :
    (([] : List RecentPeer).Pairwise
      (fun p q => p.profile.username ≠ q.profile.username)) ∧
    ((saveToRecent [] testProfile "p" 7).length ≤ 20 ∧
     (saveToRecent [] testProfile "p" 7).head? =
       some { id := toString 7, peerId := "p", profile := testProfile, metAt := 7 } ∧
     (saveToRecent [] testProfile "p" 7).Pairwise
       (fun p q => p.profile.username ≠ q.profile.username) ∧
     (∀ q ∈ saveToRecent [] testProfile "p" 7,
         q.profile.username = testProfile.username →
           q = { id := toString 7, peerId := "p", profile := testProfile, metAt := 7 }) ∧
     (([] : List RecentPeer).Pairwise (fun p q => q.metAt ≤ p.metAt) →
       (∀ p ∈ ([] : List RecentPeer), p.metAt ≤ 7) →
       (saveToRecent [] testProfile "p" 7).Pairwise (fun p q => q.metAt ≤ p.metAt)) ∧
     (([] : List RecentPeer).length = 20 →
       (∀ p ∈ ([] : List RecentPeer), p.profile.username ≠ testProfile.username) →
       saveToRecent [] testProfile "p" 7 =
         { id := toString 7, peerId := "p", profile := testProfile, metAt := 7 } ::
           ([] : List RecentPeer).dropLast)) :=
  ⟨List.Pairwise.nil, claim_C7 [] testProfile "p" 7 List.Pairwise.nil⟩

/-- C9: `saveFriend` preserves uniqueness of peer ids and is a no-op when the
    peer id is already present; a `friend_accept` envelope from an existing
    friend leaves the handler state (and outputs) untouched in both
    implementations; `removeFriend` removes exactly the records with the
    given peer id. -/
theorem claim_C9 (friendList : List Friend) (profile pr2 : UserProfile)
    (peerId peer2 : String) (now : Nat) (isMain : Bool) (rand : String)
    (s : ChatState)
    (hnodup : friendList.Pairwise (fun f g => f.id ≠ g.id))
    (hexists : s.friends.any (fun f => f.id = peer2) = true) :
    (saveFriend friendList profile peerId now).Pairwise (fun f g => f.id ≠ g.id) ∧
    (friendList.any (fun f => f.id = peerId) = true →
      saveFriend friendList profile peerId now = friendList) ∧
    handleIncomingDataV2 (PeerData.friendAccept pr2) isMain peer2 now rand s = (s, []) ∧
    handleIncomingDataV1 (PeerData.friendAccept pr2) isMain peer2 now s = (s, []) ∧
    (∀ f ∈ removeFriend friendList peerId, f.id ≠ peerId) ∧
    (∀ f ∈ friendList, f.id ≠ peerId → f ∈ removeFriend friendList peerId) := by
  refine ⟨?_, ?_, ?_, ?_, ?_, ?_⟩
  · rw [saveFriend]
    by_cases hex : friendList.any (fun f => f.id = peerId) = true
    · rw [if_pos hex]
      exact hnodup
    · rw [if_neg hex]
      apply List.pairwise_cons.mpr
      refine ⟨?_, hnodup⟩
      intro g hg
      have hnone : ∀ f ∈ friendList, ¬ (f.id = peerId) := by
        intro f hf hfid
        exact hex (List.any_eq_true.mpr ⟨f, hf, by simpa using hfid⟩)
      exact fun h => hnone g hg h.symm
  · intro hex
    rw [saveFriend, if_pos hex]
  · simp [handleIncomingDataV2, hexists]
  · simp [handleIncomingDataV1, hexists]
  · intro f hf
    have := (List.mem_filter.mp hf).2
    simpa using this
  · intro f hf hne
    exact List.mem_filter.mpr ⟨hf, by simpa using hne⟩

/-- Witness for C9: one stored friend `q`; a duplicate accept from `q` is a
    no-op and removal targets a distinct id. -/
theorem claim_C9_witness :
    (([testFriend].Pairwise (fun f g => f.id ≠ g.id)) ∧
      friendState.friends.any (fun f => f.id = "q") = true) ∧
    ((saveFriend [testFriend] testProfile "z" 5).Pairwise (fun f g => f.id ≠ g.id) ∧
     ([testFriend].any (fun f => f.id = "z") = true →
       saveFriend [testFriend] testProfile "z" 5 = [testFriend]) ∧
     handleIncomingDataV2 (PeerData.friendAccept testProfile) true "q" 5 "r"
       friendState = (friendState, []) ∧
     handleIncomingDataV1 (PeerData.friendAccept testProfile) true "q" 5
       friendState = (friendState, []) ∧
     (∀ f ∈ removeFriend [testFriend] "z", f.id ≠ "z") ∧
     (∀ f ∈ [testFriend], f.id ≠ "z" → f ∈ removeFriend [testFriend] "z")) :=
  ⟨⟨by decide, by decide⟩,
   claim_C9 [testFriend] testProfile testProfile "z" "q" 5 true "r" friendState
     (by decide) (by decide)⟩

end SIT
